import Mathlib

/-!
Shallow embedding of vectordb_orm/indexes.py from the vectordb-orm
repository: the index-configuration and validation layer.  Python classes
become structures, the constructors become functions returning
Except PyError, and the parameter dictionaries become association lists.
Machine integers are modelled by Int (Python integers are unbounded).
-/

namespace VectordbOrm

/-- Modelled from the spec: the file vectordb_orm/similarity.py is missing
from src/.  The spec describes a floating-point family of similarity
metrics (Euclidean distance, inner product); indexes.py refers to the
Euclidean member as FloatSimilarityMetric.L2. -/
inductive FloatSimilarityMetric
  | L2
  | IP
deriving DecidableEq

/-- Modelled from the spec: the file vectordb_orm/similarity.py is missing
from src/.  The spec describes a binary family of similarity metrics
(Jaccard, Hamming, Tanimoto); indexes.py refers to the Jaccard member as
BinarySimilarityMetric.JACCARD. -/
inductive BinarySimilarityMetric
  | JACCARD
  | HAMMING
  | TANIMOTO
deriving DecidableEq

/-- A runtime value supplied as metric_type in Python: a member of one of
the two enumerations, or any other value (Python does not restrict the
argument; an arbitrary foreign value is modelled by a string tag). -/
inductive MetricValue
  | float (m : FloatSimilarityMetric)
  | binary (m : BinarySimilarityMetric)
  | other (tag : String)
deriving DecidableEq

/-- The symbolic name of an enumeration member, as Python .name returns it.
Only enumeration members carry a name in the source; the value returned on
the other branch is a modelling placeholder (Python would raise
AttributeError). -/
def MetricValue.name : MetricValue → String
  | .float .L2 => "L2"
  | .float .IP => "IP"
  | .binary .JACCARD => "JACCARD"
  | .binary .HAMMING => "HAMMING"
  | .binary .TANIMOTO => "TANIMOTO"
  | .other s => s

/-- Tags identifying the seven concrete index classes of indexes.py. -/
inductive IndexTag
  | FLAT
  | IVF_FLAT
  | IVF_SQ8
  | IVF_PQ
  | HNSW
  | BIN_FLAT
  | BIN_IVF_FLAT
deriving DecidableEq

/-- FLOATING_INDEXES : set[IndexBase] = \x7bFLAT, IVF_FLAT, IVF_SQ8, IVF_PQ, HNSW\x7d -/
def FLOATING_INDEXES : List IndexTag :=
  [IndexTag.FLAT, IndexTag.IVF_FLAT, IndexTag.IVF_SQ8, IndexTag.IVF_PQ, IndexTag.HNSW]

/-- BINARY_INDEXES : set[IndexBase] = \x7bBIN_FLAT, BIN_IVF_FLAT\x7d -/
def BINARY_INDEXES : List IndexTag :=
  [IndexTag.BIN_FLAT, IndexTag.BIN_IVF_FLAT]

/-- The ValueError exceptions raised by indexes.py.  Range errors carry the
constant message string of the source verbatim.  The metric-mismatch
ValueError of IndexBase._assert_metric_type interpolates the instance and
the metric into its message; it is modelled structurally, carrying the
index tag (the class named by the default repr of self) and the metric. -/
inductive PyError
  | metricMismatch (tag : IndexTag) (metric : Option MetricValue)
  | valueError (msg : String)
deriving DecidableEq

/-- Values appearing in the parameter dictionaries. -/
inductive PyValue
  | int (n : Int)
  | str (s : String)
  | null
deriving DecidableEq

/-- Python a or b for an optional integer a: None and 0 are falsy. -/
def pyOrInt : Option Int → Int → Int
  | none, b => b
  | some a, b => if a = 0 then b else a

/-- Storing a possibly-None integer field into a parameter dictionary. -/
def optionIntVal : Option Int → PyValue
  | none => PyValue.null
  | some n => PyValue.int n

/-- IndexBase._assert_metric_type: a floating metric with an index class
outside FLOATING_INDEXES raises, a binary metric with an index class
outside BINARY_INDEXES raises, and any other value (None included) passes
unchecked. -/
def assertMetricType (tag : IndexTag) (metric_type : Option MetricValue) :
    Except PyError Unit :=
  match metric_type with
  | some (MetricValue.float f) =>
    if tag ∈ FLOATING_INDEXES then Except.ok ()
    else Except.error (PyError.metricMismatch tag (some (MetricValue.float f)))
  | some (MetricValue.binary b) =>
    if tag ∈ BINARY_INDEXES then Except.ok ()
    else Except.error (PyError.metricMismatch tag (some (MetricValue.binary b)))
  | _ => Except.ok ()

/-- IndexBase.__init__: resolve the default metric when None is supplied
(L2 for floating index classes, JACCARD for binary ones), run
_assert_metric_type, and return the metric_type value that gets stored. -/
def indexBaseInit (tag : IndexTag) (metric_type : Option MetricValue) :
    Except PyError (Option MetricValue) :=
  let resolved : Option MetricValue :=
    match metric_type with
    | none =>
      if tag ∈ FLOATING_INDEXES then some (MetricValue.float FloatSimilarityMetric.L2)
      else if tag ∈ BINARY_INDEXES then some (MetricValue.binary BinarySimilarityMetric.JACCARD)
      else none
    | some m => some m
  match assertMetricType tag resolved with
  | Except.error e => Except.error e
  | Except.ok _ => Except.ok resolved

/-- class FLAT(IndexBase) -/
structure FLAT where
  metric_type : Option MetricValue
deriving DecidableEq

def FLAT.index_type : String := "FLAT"

def FLAT.init (metric_type : Option MetricValue) : Except PyError FLAT :=
  match indexBaseInit IndexTag.FLAT metric_type with
  | Except.error e => Except.error e
  | Except.ok mt => Except.ok ⟨mt⟩

def FLAT.get_index_parameters (_s : FLAT) : List (String × PyValue) := []

def FLAT.get_inference_parameters (s : FLAT) : List (String × PyValue) :=
  [("metric_type", PyValue.str (match s.metric_type with
    | some m => m.name
    | none => "None"))]

/-- class IVF_FLAT(IndexBase) -/
structure IVF_FLAT where
  metric_type : Option MetricValue
  nlist : Int
  nprobe : Int
deriving DecidableEq

def IVF_FLAT.index_type : String := "IVF_FLAT"

def IVF_FLAT.init (cluster_units : Int) (inference_comparison : Option Int)
    (metric_type : Option MetricValue) : Except PyError IVF_FLAT :=
  match indexBaseInit IndexTag.IVF_FLAT metric_type with
  | Except.error e => Except.error e
  | Except.ok mt =>
    if ¬(cluster_units ≥ 1 ∧ cluster_units ≤ 65536) then
      Except.error (PyError.valueError "cluster_units must be between 1 and 65536")
    else if (match inference_comparison with
             | none => false
             | some ic => decide (¬(ic ≥ 1 ∧ ic ≤ cluster_units))) then
      Except.error (PyError.valueError "inference_comparison must be between 1 and cluster_units")
    else
      Except.ok ⟨mt, cluster_units, pyOrInt inference_comparison cluster_units⟩

def IVF_FLAT.get_index_parameters (s : IVF_FLAT) : List (String × PyValue) :=
  [("nlist", PyValue.int s.nlist)]

def IVF_FLAT.get_inference_parameters (s : IVF_FLAT) : List (String × PyValue) :=
  [("nprobe", PyValue.int s.nprobe)]

/-- class IVF_SQ8(IndexBase); its body repeats IVF_FLAT verbatim. -/
structure IVF_SQ8 where
  metric_type : Option MetricValue
  nlist : Int
  nprobe : Int
deriving DecidableEq

def IVF_SQ8.index_type : String := "IVF_SQ8"

def IVF_SQ8.init (cluster_units : Int) (inference_comparison : Option Int)
    (metric_type : Option MetricValue) : Except PyError IVF_SQ8 :=
  match indexBaseInit IndexTag.IVF_SQ8 metric_type with
  | Except.error e => Except.error e
  | Except.ok mt =>
    if ¬(cluster_units ≥ 1 ∧ cluster_units ≤ 65536) then
      Except.error (PyError.valueError "cluster_units must be between 1 and 65536")
    else if (match inference_comparison with
             | none => false
             | some ic => decide (¬(ic ≥ 1 ∧ ic ≤ cluster_units))) then
      Except.error (PyError.valueError "inference_comparison must be between 1 and cluster_units")
    else
      Except.ok ⟨mt, cluster_units, pyOrInt inference_comparison cluster_units⟩

def IVF_SQ8.get_index_parameters (s : IVF_SQ8) : List (String × PyValue) :=
  [("nlist", PyValue.int s.nlist)]

def IVF_SQ8.get_inference_parameters (s : IVF_SQ8) : List (String × PyValue) :=
  [("nprobe", PyValue.int s.nprobe)]

/-- class IVF_PQ(IndexBase) -/
structure IVF_PQ where
  metric_type : Option MetricValue
  m : Option Int
  nbits : Int
  nlist : Int
  nprobe : Int
deriving DecidableEq

def IVF_PQ.index_type : String := "IVF_PQ"

def IVF_PQ.init (cluster_units : Int) (product_quantization : Option Int)
    (inference_comparison : Option Int) (low_dimension_bits : Option Int)
    (metric_type : Option MetricValue) : Except PyError IVF_PQ :=
  match indexBaseInit IndexTag.IVF_PQ metric_type with
  | Except.error e => Except.error e
  | Except.ok mt =>
    if ¬(cluster_units ≥ 1 ∧ cluster_units ≤ 65536) then
      Except.error (PyError.valueError "cluster_units must be between 1 and 65536")
    else if (match inference_comparison with
             | none => false
             | some ic => decide (¬(ic ≥ 1 ∧ ic ≤ cluster_units))) then
      Except.error (PyError.valueError "inference_comparison must be between 1 and cluster_units")
    else if (match low_dimension_bits with
             | none => false
             | some b => decide (¬(b ≥ 1 ∧ b ≤ 16))) then
      Except.error (PyError.valueError "low_dimension_bits must be between 1 and 16")
    else
      Except.ok ⟨mt, product_quantization, pyOrInt low_dimension_bits 8,
        cluster_units, pyOrInt inference_comparison cluster_units⟩

def IVF_PQ.get_index_parameters (s : IVF_PQ) : List (String × PyValue) :=
  [("nlist", PyValue.int s.nlist), ("m", optionIntVal s.m),
   ("nbits", PyValue.int s.nbits)]

def IVF_PQ.get_inference_parameters (s : IVF_PQ) : List (String × PyValue) :=
  [("nprobe", PyValue.int s.nprobe)]

/-- class HNSW(IndexBase) -/
structure HNSW where
  metric_type : Option MetricValue
  m : Int
  efConstruction : Int
  ef : Int
deriving DecidableEq

def HNSW.index_type : String := "HNSW"

def HNSW.init (max_degree : Int) (search_scope_index : Int)
    (search_scope_inference : Int) (metric_type : Option MetricValue) :
    Except PyError HNSW :=
  match indexBaseInit IndexTag.HNSW metric_type with
  | Except.error e => Except.error e
  | Except.ok mt =>
    if ¬(max_degree ≥ 4 ∧ max_degree ≤ 64) then
      Except.error (PyError.valueError "max_degree must be between 4 and 64")
    else if ¬(search_scope_index ≥ 8 ∧ search_scope_index ≤ 512) then
      Except.error (PyError.valueError "search_scope must be between 1 and 512")
    else if ¬(search_scope_inference ≥ 1 ∧ search_scope_inference ≤ 32768) then
      Except.error (PyError.valueError "search_scope must be between 1 and 32768")
    else
      Except.ok ⟨mt, max_degree, search_scope_index, search_scope_inference⟩

def HNSW.get_index_parameters (s : HNSW) : List (String × PyValue) :=
  [("M", PyValue.int s.m), ("efConstruction", PyValue.int s.efConstruction)]

def HNSW.get_inference_parameters (s : HNSW) : List (String × PyValue) :=
  [("ef", PyValue.int s.ef)]

/-- class BIN_FLAT(IndexBase) -/
structure BIN_FLAT where
  metric_type : Option MetricValue
deriving DecidableEq

def BIN_FLAT.index_type : String := "BIN_FLAT"

def BIN_FLAT.init (metric_type : Option MetricValue) : Except PyError BIN_FLAT :=
  match indexBaseInit IndexTag.BIN_FLAT metric_type with
  | Except.error e => Except.error e
  | Except.ok mt => Except.ok ⟨mt⟩

def BIN_FLAT.get_index_parameters (_s : BIN_FLAT) : List (String × PyValue) := []

def BIN_FLAT.get_inference_parameters (s : BIN_FLAT) : List (String × PyValue) :=
  [("metric_type", PyValue.str (match s.metric_type with
    | some m => m.name
    | none => "None"))]

/-- class BIN_IVF_FLAT(IndexBase); its numeric body repeats IVF_FLAT
verbatim. -/
structure BIN_IVF_FLAT where
  metric_type : Option MetricValue
  nlist : Int
  nprobe : Int
deriving DecidableEq

def BIN_IVF_FLAT.index_type : String := "BIN_IVF_FLAT"

def BIN_IVF_FLAT.init (cluster_units : Int) (inference_comparison : Option Int)
    (metric_type : Option MetricValue) : Except PyError BIN_IVF_FLAT :=
  match indexBaseInit IndexTag.BIN_IVF_FLAT metric_type with
  | Except.error e => Except.error e
  | Except.ok mt =>
    if ¬(cluster_units ≥ 1 ∧ cluster_units ≤ 65536) then
      Except.error (PyError.valueError "cluster_units must be between 1 and 65536")
    else if (match inference_comparison with
             | none => false
             | some ic => decide (¬(ic ≥ 1 ∧ ic ≤ cluster_units))) then
      Except.error (PyError.valueError "inference_comparison must be between 1 and cluster_units")
    else
      Except.ok ⟨mt, cluster_units, pyOrInt inference_comparison cluster_units⟩

def BIN_IVF_FLAT.get_index_parameters (s : BIN_IVF_FLAT) : List (String × PyValue) :=
  [("nlist", PyValue.int s.nlist)]

def BIN_IVF_FLAT.get_inference_parameters (s : BIN_IVF_FLAT) : List (String × PyValue) :=
  [("nprobe", PyValue.int s.nprobe)]

/-- The metric-independent observable outcome of an IVF_FLAT construction:
nothing on failure, and the stored numeric fields together with both
parameter projections on success. -/
def IVF_FLAT.observe :
    Except PyError IVF_FLAT →
    Option (Int × Int × List (String × PyValue) × List (String × PyValue))
  | Except.error _ => none
  | Except.ok s => some (s.nlist, s.nprobe, s.get_index_parameters, s.get_inference_parameters)

/-- The metric-independent observable outcome of an IVF_SQ8 construction. -/
def IVF_SQ8.observe :
    Except PyError IVF_SQ8 →
    Option (Int × Int × List (String × PyValue) × List (String × PyValue))
  | Except.error _ => none
  | Except.ok s => some (s.nlist, s.nprobe, s.get_index_parameters, s.get_inference_parameters)

/-- The metric-independent observable outcome of a BIN_IVF_FLAT construction. -/
def BIN_IVF_FLAT.observe :
    Except PyError BIN_IVF_FLAT →
    Option (Int × Int × List (String × PyValue) × List (String × PyValue))
  | Except.error _ => none
  | Except.ok s => some (s.nlist, s.nprobe, s.get_index_parameters, s.get_inference_parameters)

/-- Bool test that the needle occurs as a contiguous substring of the
haystack, computed on the underlying character lists. -/
def strContainsSub (hay needle : String) : Bool :=
  (List.range (hay.data.length + 1)).any fun i => needle.data.isPrefixOf (hay.data.drop i)

/-- C1: every Floating-family variant (FLAT, IVF_FLAT, IVF_SQ8, IVF_PQ,
HNSW) constructed with any Binary-family metric fails with the
metric-mismatch ValueError carrying both the variant and the metric, and
symmetrically every Binary-family variant (BIN_FLAT, BIN_IVF_FLAT)
constructed with any Floating-family metric; no instance is produced in
either case, whatever the numeric arguments. -/
theorem c1_metric_family_mismatch :
    ∀ (bm : BinarySimilarityMetric) (fm : FloatSimilarityMetric)
      (cu md ssb ssq : Int) (ic pq lb : Option Int),
    FLAT.init (some (MetricValue.binary bm))
      = Except.error (PyError.metricMismatch IndexTag.FLAT (some (MetricValue.binary bm)))
    ∧ IVF_FLAT.init cu ic (some (MetricValue.binary bm))
      = Except.error (PyError.metricMismatch IndexTag.IVF_FLAT (some (MetricValue.binary bm)))
    ∧ IVF_SQ8.init cu ic (some (MetricValue.binary bm))
      = Except.error (PyError.metricMismatch IndexTag.IVF_SQ8 (some (MetricValue.binary bm)))
    ∧ IVF_PQ.init cu pq ic lb (some (MetricValue.binary bm))
      = Except.error (PyError.metricMismatch IndexTag.IVF_PQ (some (MetricValue.binary bm)))
    ∧ HNSW.init md ssb ssq (some (MetricValue.binary bm))
      = Except.error (PyError.metricMismatch IndexTag.HNSW (some (MetricValue.binary bm)))
    ∧ BIN_FLAT.init (some (MetricValue.float fm))
      = Except.error (PyError.metricMismatch IndexTag.BIN_FLAT (some (MetricValue.float fm)))
    ∧ BIN_IVF_FLAT.init cu ic (some (MetricValue.float fm))
      = Except.error (PyError.metricMismatch IndexTag.BIN_IVF_FLAT (some (MetricValue.float fm))) :=
  fun _ _ _ _ _ _ _ _ _ => ⟨rfl, rfl, rfl, rfl, rfl, rfl, rfl⟩

/-- C2: constructing any variant with the metric omitted (given in-range
numeric arguments where the variant requires them) succeeds, and the
resolved metric is L2 for the Floating-family variants and JACCARD for the
Binary-family variants. -/
theorem c2_default_metric :
    ∀ (cu md ssb ssq : Int) (pq : Option Int),
    FLAT.init none = Except.ok ⟨some (MetricValue.float FloatSimilarityMetric.L2)⟩
    ∧ (1 ≤ cu → cu ≤ 65536 →
        IVF_FLAT.init cu none none
          = Except.ok ⟨some (MetricValue.float FloatSimilarityMetric.L2), cu, cu⟩)
    ∧ (1 ≤ cu → cu ≤ 65536 →
        IVF_SQ8.init cu none none
          = Except.ok ⟨some (MetricValue.float FloatSimilarityMetric.L2), cu, cu⟩)
    ∧ (1 ≤ cu → cu ≤ 65536 →
        IVF_PQ.init cu pq none none none
          = Except.ok ⟨some (MetricValue.float FloatSimilarityMetric.L2), pq, 8, cu, cu⟩)
    ∧ (4 ≤ md → md ≤ 64 → 8 ≤ ssb → ssb ≤ 512 → 1 ≤ ssq → ssq ≤ 32768 →
        HNSW.init md ssb ssq none
          = Except.ok ⟨some (MetricValue.float FloatSimilarityMetric.L2), md, ssb, ssq⟩)
    ∧ BIN_FLAT.init none
      = Except.ok ⟨some (MetricValue.binary BinarySimilarityMetric.JACCARD)⟩
    ∧ (1 ≤ cu → cu ≤ 65536 →
        BIN_IVF_FLAT.init cu none none
          = Except.ok ⟨some (MetricValue.binary BinarySimilarityMetric.JACCARD), cu, cu⟩) := by
  intro cu md ssb ssq pq
  have hIVF : indexBaseInit IndexTag.IVF_FLAT none
      = Except.ok (some (MetricValue.float FloatSimilarityMetric.L2)) := rfl
  have hSQ8 : indexBaseInit IndexTag.IVF_SQ8 none
      = Except.ok (some (MetricValue.float FloatSimilarityMetric.L2)) := rfl
  have hPQ : indexBaseInit IndexTag.IVF_PQ none
      = Except.ok (some (MetricValue.float FloatSimilarityMetric.L2)) := rfl
  have hHNSW : indexBaseInit IndexTag.HNSW none
      = Except.ok (some (MetricValue.float FloatSimilarityMetric.L2)) := rfl
  have hBIN : indexBaseInit IndexTag.BIN_IVF_FLAT none
      = Except.ok (some (MetricValue.binary BinarySimilarityMetric.JACCARD)) := rfl
  refine ⟨rfl, ?_, ?_, ?_, ?_, rfl, ?_⟩
  · intro h1 h2
    simp only [IVF_FLAT.init, hIVF]
    rw [if_neg (by omega)]
    rfl
  · intro h1 h2
    simp only [IVF_SQ8.init, hSQ8]
    rw [if_neg (by omega)]
    rfl
  · intro h1 h2
    simp only [IVF_PQ.init, hPQ]
    rw [if_neg (by omega)]
    rfl
  · intro h1 h2 h3 h4 h5 h6
    simp only [HNSW.init, hHNSW]
    rw [if_neg (by omega), if_neg (by omega), if_neg (by omega)]
  · intro h1 h2
    simp only [BIN_IVF_FLAT.init, hBIN]
    rw [if_neg (by omega)]
    rfl

/-- C2 witness: the defaults observed at concrete in-range arguments. -/
theorem c2_default_metric_witness :
    FLAT.init none = Except.ok ⟨some (MetricValue.float FloatSimilarityMetric.L2)⟩
    ∧ IVF_FLAT.init 128 none none
      = Except.ok ⟨some (MetricValue.float FloatSimilarityMetric.L2), 128, 128⟩
    ∧ IVF_SQ8.init 128 none none
      = Except.ok ⟨some (MetricValue.float FloatSimilarityMetric.L2), 128, 128⟩
    ∧ IVF_PQ.init 128 (some 4) none none none
      = Except.ok ⟨some (MetricValue.float FloatSimilarityMetric.L2), some 4, 8, 128, 128⟩
    ∧ HNSW.init 16 200 64 none
      = Except.ok ⟨some (MetricValue.float FloatSimilarityMetric.L2), 16, 200, 64⟩
    ∧ BIN_FLAT.init none
      = Except.ok ⟨some (MetricValue.binary BinarySimilarityMetric.JACCARD)⟩
    ∧ BIN_IVF_FLAT.init 128 none none
      = Except.ok ⟨some (MetricValue.binary BinarySimilarityMetric.JACCARD), 128, 128⟩ := by
  have h := c2_default_metric 128 16 200 64 (some 4)
  exact ⟨h.1, h.2.1 (by decide) (by decide), h.2.2.1 (by decide) (by decide),
    h.2.2.2.1 (by decide) (by decide),
    h.2.2.2.2.1 (by decide) (by decide) (by decide) (by decide) (by decide) (by decide),
    h.2.2.2.2.2.1, h.2.2.2.2.2.2 (by decide) (by decide)⟩

/-- C3: for IVF_FLAT, IVF_SQ8 and BIN_IVF_FLAT, cluster_units 1 and 65536
succeed while 0 and 65537 fail; an omitted probe count equals
cluster_units; a probe count greater than cluster_units fails; a probe
count equal to cluster_units succeeds. -/
theorem c3_ivf_cluster_probe_bounds :
    ((IVF_FLAT.init 1 none none).isOk = true
     ∧ (IVF_FLAT.init 65536 none none).isOk = true
     ∧ (IVF_FLAT.init 0 none none).isOk = false
     ∧ (IVF_FLAT.init 65537 none none).isOk = false
     ∧ (∀ cu : Int, 1 ≤ cu → cu ≤ 65536 →
         (IVF_FLAT.init cu none none).map IVF_FLAT.nprobe = Except.ok cu)
     ∧ (∀ cu pc : Int, cu < pc → (IVF_FLAT.init cu (some pc) none).isOk = false)
     ∧ (∀ cu : Int, 1 ≤ cu → cu ≤ 65536 →
         (IVF_FLAT.init cu (some cu) none).isOk = true))
    ∧ ((IVF_SQ8.init 1 none none).isOk = true
     ∧ (IVF_SQ8.init 65536 none none).isOk = true
     ∧ (IVF_SQ8.init 0 none none).isOk = false
     ∧ (IVF_SQ8.init 65537 none none).isOk = false
     ∧ (∀ cu : Int, 1 ≤ cu → cu ≤ 65536 →
         (IVF_SQ8.init cu none none).map IVF_SQ8.nprobe = Except.ok cu)
     ∧ (∀ cu pc : Int, cu < pc → (IVF_SQ8.init cu (some pc) none).isOk = false)
     ∧ (∀ cu : Int, 1 ≤ cu → cu ≤ 65536 →
         (IVF_SQ8.init cu (some cu) none).isOk = true))
    ∧ ((BIN_IVF_FLAT.init 1 none none).isOk = true
     ∧ (BIN_IVF_FLAT.init 65536 none none).isOk = true
     ∧ (BIN_IVF_FLAT.init 0 none none).isOk = false
     ∧ (BIN_IVF_FLAT.init 65537 none none).isOk = false
     ∧ (∀ cu : Int, 1 ≤ cu → cu ≤ 65536 →
         (BIN_IVF_FLAT.init cu none none).map BIN_IVF_FLAT.nprobe = Except.ok cu)
     ∧ (∀ cu pc : Int, cu < pc → (BIN_IVF_FLAT.init cu (some pc) none).isOk = false)
     ∧ (∀ cu : Int, 1 ≤ cu → cu ≤ 65536 →
         (BIN_IVF_FLAT.init cu (some cu) none).isOk = true)) := by
  have hIVF : indexBaseInit IndexTag.IVF_FLAT none
      = Except.ok (some (MetricValue.float FloatSimilarityMetric.L2)) := rfl
  have hSQ8 : indexBaseInit IndexTag.IVF_SQ8 none
      = Except.ok (some (MetricValue.float FloatSimilarityMetric.L2)) := rfl
  have hBIN : indexBaseInit IndexTag.BIN_IVF_FLAT none
      = Except.ok (some (MetricValue.binary BinarySimilarityMetric.JACCARD)) := rfl
  refine ⟨⟨by decide, by decide, by decide, by decide, ?_, ?_, ?_⟩,
    ⟨by decide, by decide, by decide, by decide, ?_, ?_, ?_⟩,
    ⟨by decide, by decide, by decide, by decide, ?_, ?_, ?_⟩⟩
  · intro cu h1 h2
    simp only [IVF_FLAT.init, hIVF]
    rw [if_neg (by omega)]
    rfl
  · intro cu pc hpc
    simp only [IVF_FLAT.init, hIVF]
    by_cases hcu : ¬(cu ≥ 1 ∧ cu ≤ 65536)
    · rw [if_pos hcu]; rfl
    · rw [if_neg hcu, if_pos (by simp only [decide_eq_true_eq]; omega)]; rfl
  · intro cu h1 h2
    simp only [IVF_FLAT.init, hIVF]
    rw [if_neg (by omega), if_neg (by simp only [decide_eq_true_eq]; omega)]
    rfl
  · intro cu h1 h2
    simp only [IVF_SQ8.init, hSQ8]
    rw [if_neg (by omega)]
    rfl
  · intro cu pc hpc
    simp only [IVF_SQ8.init, hSQ8]
    by_cases hcu : ¬(cu ≥ 1 ∧ cu ≤ 65536)
    · rw [if_pos hcu]; rfl
    · rw [if_neg hcu, if_pos (by simp only [decide_eq_true_eq]; omega)]; rfl
  · intro cu h1 h2
    simp only [IVF_SQ8.init, hSQ8]
    rw [if_neg (by omega), if_neg (by simp only [decide_eq_true_eq]; omega)]
    rfl
  · intro cu h1 h2
    simp only [BIN_IVF_FLAT.init, hBIN]
    rw [if_neg (by omega)]
    rfl
  · intro cu pc hpc
    simp only [BIN_IVF_FLAT.init, hBIN]
    by_cases hcu : ¬(cu ≥ 1 ∧ cu ≤ 65536)
    · rw [if_pos hcu]; rfl
    · rw [if_neg hcu, if_pos (by simp only [decide_eq_true_eq]; omega)]; rfl
  · intro cu h1 h2
    simp only [BIN_IVF_FLAT.init, hBIN]
    rw [if_neg (by omega), if_neg (by simp only [decide_eq_true_eq]; omega)]
    rfl

/-- C3 witness: the quantified parts of the claim observed at concrete
inputs (probe default at 128, failure at probe 11 over 10 clusters,
success at probe equal to clusters). -/
theorem c3_ivf_cluster_probe_bounds_witness :
    (IVF_FLAT.init 128 none none).map IVF_FLAT.nprobe = Except.ok 128
    ∧ (IVF_FLAT.init 10 (some 11) none).isOk = false
    ∧ (IVF_FLAT.init 128 (some 128) none).isOk = true
    ∧ (IVF_SQ8.init 128 none none).map IVF_SQ8.nprobe = Except.ok 128
    ∧ (IVF_SQ8.init 10 (some 11) none).isOk = false
    ∧ (IVF_SQ8.init 128 (some 128) none).isOk = true
    ∧ (BIN_IVF_FLAT.init 128 none none).map BIN_IVF_FLAT.nprobe = Except.ok 128
    ∧ (BIN_IVF_FLAT.init 10 (some 11) none).isOk = false
    ∧ (BIN_IVF_FLAT.init 128 (some 128) none).isOk = true := by
  have h := c3_ivf_cluster_probe_bounds
  exact ⟨h.1.2.2.2.2.1 128 (by decide) (by decide),
    h.1.2.2.2.2.2.1 10 11 (by decide),
    h.1.2.2.2.2.2.2 128 (by decide) (by decide),
    h.2.1.2.2.2.2.1 128 (by decide) (by decide),
    h.2.1.2.2.2.2.2.1 10 11 (by decide),
    h.2.1.2.2.2.2.2.2 128 (by decide) (by decide),
    h.2.2.2.2.2.2.1 128 (by decide) (by decide),
    h.2.2.2.2.2.2.2.1 10 11 (by decide),
    h.2.2.2.2.2.2.2.2 128 (by decide) (by decide)⟩

/-- C4 counterexample: FLAT constructed with a metric value that belongs
to neither enumeration does not fail; the instance is created and stores
the unknown value, refuting the claim that such a construction fails. -/
theorem c4_unknown_metric_counterexample :
    FLAT.init (some (MetricValue.other "COSINE"))
      = Except.ok ⟨some (MetricValue.other "COSINE")⟩ := rfl

/-- C4 amended: constructing any variant with a supplied metric value that
belongs to neither of the two known metric enumerations succeeds (given
in-range numeric arguments), because the metric check only inspects the
two enumeration cases; the instance is created storing the unknown value
unchanged. -/
theorem c4_unknown_metric_accepted :
    ∀ (s : String) (cu md ssb ssq : Int) (pq : Option Int),
    FLAT.init (some (MetricValue.other s)) = Except.ok ⟨some (MetricValue.other s)⟩
    ∧ (1 ≤ cu → cu ≤ 65536 →
        IVF_FLAT.init cu none (some (MetricValue.other s))
          = Except.ok ⟨some (MetricValue.other s), cu, cu⟩)
    ∧ (1 ≤ cu → cu ≤ 65536 →
        IVF_SQ8.init cu none (some (MetricValue.other s))
          = Except.ok ⟨some (MetricValue.other s), cu, cu⟩)
    ∧ (1 ≤ cu → cu ≤ 65536 →
        IVF_PQ.init cu pq none none (some (MetricValue.other s))
          = Except.ok ⟨some (MetricValue.other s), pq, 8, cu, cu⟩)
    ∧ (4 ≤ md → md ≤ 64 → 8 ≤ ssb → ssb ≤ 512 → 1 ≤ ssq → ssq ≤ 32768 →
        HNSW.init md ssb ssq (some (MetricValue.other s))
          = Except.ok ⟨some (MetricValue.other s), md, ssb, ssq⟩)
    ∧ BIN_FLAT.init (some (MetricValue.other s))
      = Except.ok ⟨some (MetricValue.other s)⟩
    ∧ (1 ≤ cu → cu ≤ 65536 →
        BIN_IVF_FLAT.init cu none (some (MetricValue.other s))
          = Except.ok ⟨some (MetricValue.other s), cu, cu⟩) := by
  intro s cu md ssb ssq pq
  have hIVF : indexBaseInit IndexTag.IVF_FLAT (some (MetricValue.other s))
      = Except.ok (some (MetricValue.other s)) := rfl
  have hSQ8 : indexBaseInit IndexTag.IVF_SQ8 (some (MetricValue.other s))
      = Except.ok (some (MetricValue.other s)) := rfl
  have hPQ : indexBaseInit IndexTag.IVF_PQ (some (MetricValue.other s))
      = Except.ok (some (MetricValue.other s)) := rfl
  have hHNSW : indexBaseInit IndexTag.HNSW (some (MetricValue.other s))
      = Except.ok (some (MetricValue.other s)) := rfl
  have hBIN : indexBaseInit IndexTag.BIN_IVF_FLAT (some (MetricValue.other s))
      = Except.ok (some (MetricValue.other s)) := rfl
  refine ⟨rfl, ?_, ?_, ?_, ?_, rfl, ?_⟩
  · intro h1 h2
    simp only [IVF_FLAT.init, hIVF]
    rw [if_neg (by omega)]
    rfl
  · intro h1 h2
    simp only [IVF_SQ8.init, hSQ8]
    rw [if_neg (by omega)]
    rfl
  · intro h1 h2
    simp only [IVF_PQ.init, hPQ]
    rw [if_neg (by omega)]
    rfl
  · intro h1 h2 h3 h4 h5 h6
    simp only [HNSW.init, hHNSW]
    rw [if_neg (by omega), if_neg (by omega), if_neg (by omega)]
  · intro h1 h2
    simp only [BIN_IVF_FLAT.init, hBIN]
    rw [if_neg (by omega)]
    rfl

/-- C4 amended witness: the unknown value COSINE is accepted by every
variant at concrete in-range numeric arguments. -/
theorem c4_unknown_metric_accepted_witness :
    FLAT.init (some (MetricValue.other "COSINE"))
      = Except.ok ⟨some (MetricValue.other "COSINE")⟩
    ∧ IVF_FLAT.init 128 none (some (MetricValue.other "COSINE"))
      = Except.ok ⟨some (MetricValue.other "COSINE"), 128, 128⟩
    ∧ IVF_SQ8.init 128 none (some (MetricValue.other "COSINE"))
      = Except.ok ⟨some (MetricValue.other "COSINE"), 128, 128⟩
    ∧ IVF_PQ.init 128 (some 4) none none (some (MetricValue.other "COSINE"))
      = Except.ok ⟨some (MetricValue.other "COSINE"), some 4, 8, 128, 128⟩
    ∧ HNSW.init 16 200 64 (some (MetricValue.other "COSINE"))
      = Except.ok ⟨some (MetricValue.other "COSINE"), 16, 200, 64⟩
    ∧ BIN_FLAT.init (some (MetricValue.other "COSINE"))
      = Except.ok ⟨some (MetricValue.other "COSINE")⟩
    ∧ BIN_IVF_FLAT.init 128 none (some (MetricValue.other "COSINE"))
      = Except.ok ⟨some (MetricValue.other "COSINE"), 128, 128⟩ := by
  have h := c4_unknown_metric_accepted "COSINE" 128 16 200 64 (some 4)
  exact ⟨h.1, h.2.1 (by decide) (by decide), h.2.2.1 (by decide) (by decide),
    h.2.2.2.1 (by decide) (by decide),
    h.2.2.2.2.1 (by decide) (by decide) (by decide) (by decide) (by decide) (by decide),
    h.2.2.2.2.2.1, h.2.2.2.2.2.2 (by decide) (by decide)⟩

/-- C5 counterexample: HNSW with search_scope_index equal to 7, which is
below the enforced lower bound 8, fails with a ValueError whose message
does not contain the supplied value 7, does not contain the enforced lower
bound 8, and does not contain the field name search_scope_index; it states
the range as 1 and 512 although 7 is rejected (8 succeeds with the same
other arguments), so the description identifies neither the supplied
value nor the valid range. -/
theorem c5_range_error_counterexample :
    HNSW.init 16 7 64 none
      = Except.error (PyError.valueError "search_scope must be between 1 and 512")
    ∧ (HNSW.init 16 8 64 none).isOk = true
    ∧ strContainsSub "search_scope must be between 1 and 512" "7" = false
    ∧ strContainsSub "search_scope must be between 1 and 512" "8" = false
    ∧ strContainsSub "search_scope must be between 1 and 512" "search_scope_index" = false := by
  refine ⟨rfl, rfl, ?_, ?_, ?_⟩ <;> decide

/-- C5 amended: for every variant and every out-of-bound numeric argument,
construction fails immediately with a ValueError and no object is created;
the message is a constant string naming a field and a numeric range but
not the supplied value, and for the HNSW search-scope arguments the stated
field name (search_scope) and, for search_scope_index, the stated lower
bound (1 instead of the enforced 8) differ from the enforced ones. -/
theorem c5_range_error_behavior :
    ∀ (cu pc md ssb ssq b : Int) (pq : Option Int),
    (¬(cu ≥ 1 ∧ cu ≤ 65536) →
      IVF_FLAT.init cu none none
        = Except.error (PyError.valueError "cluster_units must be between 1 and 65536")
      ∧ IVF_SQ8.init cu none none
        = Except.error (PyError.valueError "cluster_units must be between 1 and 65536")
      ∧ BIN_IVF_FLAT.init cu none none
        = Except.error (PyError.valueError "cluster_units must be between 1 and 65536")
      ∧ IVF_PQ.init cu pq none none none
        = Except.error (PyError.valueError "cluster_units must be between 1 and 65536"))
    ∧ ((cu ≥ 1 ∧ cu ≤ 65536) → ¬(pc ≥ 1 ∧ pc ≤ cu) →
      IVF_FLAT.init cu (some pc) none
        = Except.error (PyError.valueError "inference_comparison must be between 1 and cluster_units")
      ∧ IVF_SQ8.init cu (some pc) none
        = Except.error (PyError.valueError "inference_comparison must be between 1 and cluster_units")
      ∧ BIN_IVF_FLAT.init cu (some pc) none
        = Except.error (PyError.valueError "inference_comparison must be between 1 and cluster_units")
      ∧ IVF_PQ.init cu pq (some pc) none none
        = Except.error (PyError.valueError "inference_comparison must be between 1 and cluster_units"))
    ∧ ((cu ≥ 1 ∧ cu ≤ 65536) → ¬(b ≥ 1 ∧ b ≤ 16) →
      IVF_PQ.init cu pq none (some b) none
        = Except.error (PyError.valueError "low_dimension_bits must be between 1 and 16"))
    ∧ (¬(md ≥ 4 ∧ md ≤ 64) →
      HNSW.init md ssb ssq none
        = Except.error (PyError.valueError "max_degree must be between 4 and 64"))
    ∧ ((md ≥ 4 ∧ md ≤ 64) → ¬(ssb ≥ 8 ∧ ssb ≤ 512) →
      HNSW.init md ssb ssq none
        = Except.error (PyError.valueError "search_scope must be between 1 and 512"))
    ∧ ((md ≥ 4 ∧ md ≤ 64) → (ssb ≥ 8 ∧ ssb ≤ 512) → ¬(ssq ≥ 1 ∧ ssq ≤ 32768) →
      HNSW.init md ssb ssq none
        = Except.error (PyError.valueError "search_scope must be between 1 and 32768")) := by
  intro cu pc md ssb ssq b pq
  have hIVF : indexBaseInit IndexTag.IVF_FLAT none
      = Except.ok (some (MetricValue.float FloatSimilarityMetric.L2)) := rfl
  have hSQ8 : indexBaseInit IndexTag.IVF_SQ8 none
      = Except.ok (some (MetricValue.float FloatSimilarityMetric.L2)) := rfl
  have hPQ : indexBaseInit IndexTag.IVF_PQ none
      = Except.ok (some (MetricValue.float FloatSimilarityMetric.L2)) := rfl
  have hHNSW : indexBaseInit IndexTag.HNSW none
      = Except.ok (some (MetricValue.float FloatSimilarityMetric.L2)) := rfl
  have hBIN : indexBaseInit IndexTag.BIN_IVF_FLAT none
      = Except.ok (some (MetricValue.binary BinarySimilarityMetric.JACCARD)) := rfl
  refine ⟨?_, ?_, ?_, ?_, ?_, ?_⟩
  · intro h
    refine ⟨?_, ?_, ?_, ?_⟩
    · simp only [IVF_FLAT.init, hIVF]; rw [if_pos h]
    · simp only [IVF_SQ8.init, hSQ8]; rw [if_pos h]
    · simp only [BIN_IVF_FLAT.init, hBIN]; rw [if_pos h]
    · simp only [IVF_PQ.init, hPQ]; rw [if_pos h]
  · intro hcu hpc
    refine ⟨?_, ?_, ?_, ?_⟩
    · simp only [IVF_FLAT.init, hIVF]
      rw [if_neg (not_not_intro hcu),
        if_pos (by simp only [decide_eq_true_eq]; exact hpc)]
    · simp only [IVF_SQ8.init, hSQ8]
      rw [if_neg (not_not_intro hcu),
        if_pos (by simp only [decide_eq_true_eq]; exact hpc)]
    · simp only [BIN_IVF_FLAT.init, hBIN]
      rw [if_neg (not_not_intro hcu),
        if_pos (by simp only [decide_eq_true_eq]; exact hpc)]
    · simp only [IVF_PQ.init, hPQ]
      rw [if_neg (not_not_intro hcu),
        if_pos (by simp only [decide_eq_true_eq]; exact hpc)]
  · intro hcu hb2
    simp only [IVF_PQ.init, hPQ]
    rw [if_neg (not_not_intro hcu), if_neg (by simp),
      if_pos (by simp only [decide_eq_true_eq]; exact hb2)]
  · intro h
    simp only [HNSW.init, hHNSW]
    rw [if_pos h]
  · intro hmd hssb
    simp only [HNSW.init, hHNSW]
    rw [if_neg (not_not_intro hmd), if_pos hssb]
  · intro hmd hssb hssq
    simp only [HNSW.init, hHNSW]
    rw [if_neg (not_not_intro hmd), if_neg (not_not_intro hssb), if_pos hssq]

/-- C5 amended witness: each failing check observed at a concrete
out-of-bound input. -/
theorem c5_range_error_behavior_witness :
    IVF_FLAT.init 0 none none
      = Except.error (PyError.valueError "cluster_units must be between 1 and 65536")
    ∧ IVF_FLAT.init 10 (some 11) none
      = Except.error (PyError.valueError "inference_comparison must be between 1 and cluster_units")
    ∧ IVF_PQ.init 100 (some 4) none (some 17) none
      = Except.error (PyError.valueError "low_dimension_bits must be between 1 and 16")
    ∧ HNSW.init 3 200 64 none
      = Except.error (PyError.valueError "max_degree must be between 4 and 64")
    ∧ HNSW.init 16 7 64 none
      = Except.error (PyError.valueError "search_scope must be between 1 and 512")
    ∧ HNSW.init 16 200 32769 none
      = Except.error (PyError.valueError "search_scope must be between 1 and 32768") := by
  have h := c5_range_error_behavior 0 11 3 200 64 17 (some 4)
  have h2 := c5_range_error_behavior 10 11 16 7 64 17 (some 4)
  have h3 := c5_range_error_behavior 100 11 16 200 32769 17 (some 4)
  exact ⟨(h.1 (by decide)).1, (h2.2.1 (by decide) (by decide)).1,
    h3.2.2.1 (by decide) (by decide),
    h.2.2.2.1 (by decide),
    h2.2.2.2.2.1 (by decide) (by decide),
    h3.2.2.2.2.2 (by decide) (by decide) (by decide)⟩

/-- C6: the HNSW bounds are inclusive exactly as claimed: max_degree 4 and
64 succeed while 3 and 65 fail, search_scope_index 8 and 512 succeed while
7 and 513 fail, and search_scope_inference 1 and 32768 succeed while 0 and
32769 fail, the other arguments held in range. -/
theorem c6_hnsw_bounds :
    (HNSW.init 4 200 64 none).isOk = true
    ∧ (HNSW.init 64 200 64 none).isOk = true
    ∧ (HNSW.init 3 200 64 none).isOk = false
    ∧ (HNSW.init 65 200 64 none).isOk = false
    ∧ (HNSW.init 16 8 64 none).isOk = true
    ∧ (HNSW.init 16 512 64 none).isOk = true
    ∧ (HNSW.init 16 7 64 none).isOk = false
    ∧ (HNSW.init 16 513 64 none).isOk = false
    ∧ (HNSW.init 16 200 1 none).isOk = true
    ∧ (HNSW.init 16 200 32768 none).isOk = true
    ∧ (HNSW.init 16 200 0 none).isOk = false
    ∧ (HNSW.init 16 200 32769 none).isOk = false := by decide

/-- C7: an omitted low_dimension_bits resolves to a stored nbits of 8 for
every successful construction; low_dimension_bits 1 and 16 succeed while
0 and 17 fail; and IVF_PQ with cluster_units 100 and product_quantization
4, probe count and bits omitted, stores nbits 8 and nprobe 100. -/
theorem c7_ivf_pq_codebits :
    (∀ (cu : Int) (pq : Option Int), 1 ≤ cu → cu ≤ 65536 →
      (IVF_PQ.init cu pq none none none).map IVF_PQ.nbits = Except.ok 8)
    ∧ (IVF_PQ.init 100 (some 4) none (some 1) none).isOk = true
    ∧ (IVF_PQ.init 100 (some 4) none (some 16) none).isOk = true
    ∧ (IVF_PQ.init 100 (some 4) none (some 0) none).isOk = false
    ∧ (IVF_PQ.init 100 (some 4) none (some 17) none).isOk = false
    ∧ IVF_PQ.init 100 (some 4) none none none
      = Except.ok ⟨some (MetricValue.float FloatSimilarityMetric.L2), some 4, 8, 100, 100⟩ := by
  have hPQ : indexBaseInit IndexTag.IVF_PQ none
      = Except.ok (some (MetricValue.float FloatSimilarityMetric.L2)) := rfl
  refine ⟨?_, by decide, by decide, by decide, by decide, rfl⟩
  intro cu pq h1 h2
  simp only [IVF_PQ.init, hPQ]
  rw [if_neg (by omega)]
  rfl

/-- C7 witness: the quantified default-bits clause observed at the
concrete input of the claim. -/
theorem c7_ivf_pq_codebits_witness :
    (IVF_PQ.init 100 (some 4) none none none).map IVF_PQ.nbits = Except.ok 8 :=
  c7_ivf_pq_codebits.1 100 (some 4) (by decide) (by decide)

/-- C8: HNSW constructed with max_degree 16, search_scope_index 200 and
search_scope_inference 64 projects build parameters equal to the mapping
with exactly the keys M at 16 and efConstruction at 200, and query
parameters with exactly the key ef at 64. -/
theorem c8_hnsw_projections :
    (HNSW.init 16 200 64 none).map HNSW.get_index_parameters
      = Except.ok [("M", PyValue.int 16), ("efConstruction", PyValue.int 200)]
    ∧ (HNSW.init 16 200 64 none).map HNSW.get_inference_parameters
      = Except.ok [("ef", PyValue.int 64)] := ⟨rfl, rfl⟩

/-- C9: IVF_SQ8 and BIN_IVF_FLAT behave identically to IVF_FLAT on the
metric-independent part: for every cluster_units and probe count (and, for
IVF_SQ8, every supplied metric), construction succeeds or fails under the
same conditions and a successful instance carries the same nlist, nprobe
and parameter projections. -/
theorem c9_ivf_variants_identical :
    ∀ (cu : Int) (ic : Option Int) (mt : Option MetricValue),
    IVF_FLAT.observe (IVF_FLAT.init cu ic mt) = IVF_SQ8.observe (IVF_SQ8.init cu ic mt)
    ∧ IVF_FLAT.observe (IVF_FLAT.init cu ic none)
      = BIN_IVF_FLAT.observe (BIN_IVF_FLAT.init cu ic none) := by
  intro cu ic mt
  have hIVFn : indexBaseInit IndexTag.IVF_FLAT none
      = Except.ok (some (MetricValue.float FloatSimilarityMetric.L2)) := rfl
  have hSQ8n : indexBaseInit IndexTag.IVF_SQ8 none
      = Except.ok (some (MetricValue.float FloatSimilarityMetric.L2)) := rfl
  have hBINn : indexBaseInit IndexTag.BIN_IVF_FLAT none
      = Except.ok (some (MetricValue.binary BinarySimilarityMetric.JACCARD)) := rfl
  constructor
  · cases mt with
    | none =>
      simp only [IVF_FLAT.init, IVF_SQ8.init, hIVFn, hSQ8n]
      split_ifs <;> rfl
    | some v =>
      cases v with
      | float f =>
        have h1 : indexBaseInit IndexTag.IVF_FLAT (some (MetricValue.float f))
            = Except.ok (some (MetricValue.float f)) := rfl
        have h2 : indexBaseInit IndexTag.IVF_SQ8 (some (MetricValue.float f))
            = Except.ok (some (MetricValue.float f)) := rfl
        simp only [IVF_FLAT.init, IVF_SQ8.init, h1, h2]
        split_ifs <;> rfl
      | binary b => rfl
      | other s =>
        have h1 : indexBaseInit IndexTag.IVF_FLAT (some (MetricValue.other s))
            = Except.ok (some (MetricValue.other s)) := rfl
        have h2 : indexBaseInit IndexTag.IVF_SQ8 (some (MetricValue.other s))
            = Except.ok (some (MetricValue.other s)) := rfl
        simp only [IVF_FLAT.init, IVF_SQ8.init, h1, h2]
        split_ifs <;> rfl
  · simp only [IVF_FLAT.init, BIN_IVF_FLAT.init, hIVFn, hBINn]
    split_ifs <;> rfl

/-- C10: every successfully constructed IVF_PQ whose product_quantization
argument was omitted still lists the key m in its build parameters, mapped
to the null value, alongside the nlist and nbits entries. -/
theorem c10_ivf_pq_m_null :
    ∀ (cu : Int) (ic lb : Option Int) (mt : Option MetricValue) (s : IVF_PQ),
    IVF_PQ.init cu none ic lb mt = Except.ok s →
    ("m", PyValue.null) ∈ s.get_index_parameters
    ∧ ("nlist", PyValue.int s.nlist) ∈ s.get_index_parameters
    ∧ ("nbits", PyValue.int s.nbits) ∈ s.get_index_parameters := by
  intro cu ic lb mt s h
  unfold IVF_PQ.init at h
  split at h
  · exact Except.noConfusion h
  · split at h
    · exact Except.noConfusion h
    · split at h
      · exact Except.noConfusion h
      · split at h
        · exact Except.noConfusion h
        · injection h with h
          subst h
          refine ⟨?_, ?_, ?_⟩ <;> simp [IVF_PQ.get_index_parameters, optionIntVal]

/-- C10 witness: the m entry observed on the concrete instance built from
cluster_units 100 with product_quantization omitted. -/
theorem c10_ivf_pq_m_null_witness :
    ("m", PyValue.null) ∈ IVF_PQ.get_index_parameters
      ⟨some (MetricValue.float FloatSimilarityMetric.L2), none, 8, 100, 100⟩
    ∧ ("nlist", PyValue.int 100) ∈ IVF_PQ.get_index_parameters
      ⟨some (MetricValue.float FloatSimilarityMetric.L2), none, 8, 100, 100⟩
    ∧ ("nbits", PyValue.int 8) ∈ IVF_PQ.get_index_parameters
      ⟨some (MetricValue.float FloatSimilarityMetric.L2), none, 8, 100, 100⟩ :=
  c10_ivf_pq_m_null 100 none none none
    ⟨some (MetricValue.float FloatSimilarityMetric.L2), none, 8, 100, 100⟩ rfl

end VectordbOrm
